import Mathlib

/-!
Shallow embedding of `src/app/main.py` (a small robot / delivery-drone
object model) and verification of its specification claims.

Modelling conventions:
* Python `float` values are modelled as rationals (`ℚ`); every numeric
  operation in the source is exact addition/subtraction/comparison, so no
  rounding behaviour is involved.
* A Python object is a Lean structure; a mutating method becomes a state
  transformer `State → State` (or `State → Option State` when the method
  can raise `IndexError`, which is the only possible exception: indexing
  `self.coords[i]` out of range).  `none` models the raised exception.
* `self.coords[i] += step` / `-= step` are modelled by `addAt` / `subAt`,
  which fail (return `none`) exactly when Python would raise `IndexError`.
* Python's `str()` rendering of a float (used by the f-string in
  `get_info`) is modelled by `pyFloatStr`, which produces the exact
  decimal expansion; this agrees with Python on every float whose value
  is a finite decimal (all values appearing in the repository and spec).
-/

/-- `Cargo.__init__` (src/app/main.py:165-178): a cargo item holding a weight. -/
structure Cargo where
  weight : ℚ
deriving DecidableEq, Repr

/-- State of a `BaseRobot` (src/app/main.py:4-28): name, weight and a
mutable coordinate list (`[x, y]` in intended use, but the constructor
accepts any list). -/
structure BaseRobot where
  name : String
  weight : ℚ
  coords : List ℚ
deriving DecidableEq, Repr

/-- `BaseRobot.__init__` (src/app/main.py:13-28):
`self.coords = coords if coords is not None else [0, 0]`. -/
def BaseRobot.init (name : String) (weight : ℚ) (coords : Option (List ℚ)) :
    BaseRobot :=
  { name := name
    weight := weight
    coords := match coords with
      | some c => c
      | none => [0, 0] }

/-- Model of Python `l[i] += s` on a list: succeeds returning the updated
list when `i` is in range, `none` (IndexError) otherwise. -/
def addAt (l : List ℚ) (i : Nat) (s : ℚ) : Option (List ℚ) :=
  if h : i < l.length then some (l.set i (l.get ⟨i, h⟩ + s)) else none

/-- Model of Python `l[i] -= s` on a list: succeeds returning the updated
list when `i` is in range, `none` (IndexError) otherwise. -/
def subAt (l : List ℚ) (i : Nat) (s : ℚ) : Option (List ℚ) :=
  if h : i < l.length then some (l.set i (l.get ⟨i, h⟩ - s)) else none

/-- `BaseRobot.go_forward` (src/app/main.py:30-36): `self.coords[1] += step`. -/
def BaseRobot.go_forward (r : BaseRobot) (step : ℚ) : Option BaseRobot :=
  (addAt r.coords 1 step).map fun c => { r with coords := c }

/-- `BaseRobot.go_back` (src/app/main.py:38-44): `self.coords[1] -= step`. -/
def BaseRobot.go_back (r : BaseRobot) (step : ℚ) : Option BaseRobot :=
  (subAt r.coords 1 step).map fun c => { r with coords := c }

/-- `BaseRobot.go_right` (src/app/main.py:46-52): `self.coords[0] += step`. -/
def BaseRobot.go_right (r : BaseRobot) (step : ℚ) : Option BaseRobot :=
  (addAt r.coords 0 step).map fun c => { r with coords := c }

/-- `BaseRobot.go_left` (src/app/main.py:54-60): `self.coords[0] -= step`. -/
def BaseRobot.go_left (r : BaseRobot) (step : ℚ) : Option BaseRobot :=
  (subAt r.coords 0 step).map fun c => { r with coords := c }

/-- Decimal digits of the fractional part `rem/d` (`0 ≤ rem < d`), with
fuel; stops when the remainder reaches `0`. -/
def fracDigits : Nat → Nat → Nat → List Nat
  | 0, _, _ => []
  | _ + 1, 0, _ => []
  | fuel + 1, rem, d => (rem * 10 / d) :: fracDigits fuel (rem * 10 % d) d

/-- Python's `str()` of a float, for floats whose value is a finite
decimal: sign, integer part, a dot, and the fractional digits (Python
always prints at least one fractional digit for a float, e.g. `12.0`). -/
def pyFloatStr (q : ℚ) : String :=
  let sign := if q < 0 then "-" else ""
  let n : Nat := q.num.natAbs
  let d : Nat := q.den
  let digits := fracDigits 64 (n % d) d
  let frac := if digits.isEmpty then "0" else String.join (digits.map toString)
  sign ++ toString (n / d) ++ "." ++ frac

/-- `BaseRobot.get_info` (src/app/main.py:62-68): returns the f-string
`f"Robot: {self.name}, Weight: {self.weight}"`; modelled as (return
value, post-state) — the body contains no assignment, so the post-state
is the receiver. -/
def BaseRobot.get_info (r : BaseRobot) : String × BaseRobot :=
  ("Robot: " ++ r.name ++ ", Weight: " ++ pyFloatStr r.weight, r)

/-- State of a `FlyingRobot` (src/app/main.py:71-112): same fields as
`BaseRobot` (Python adds no new attribute, it only renormalizes `coords`). -/
structure FlyingRobot where
  name : String
  weight : ℚ
  coords : List ℚ
deriving DecidableEq, Repr

/-- `FlyingRobot.__init__` (src/app/main.py:72-96): normalizes the
starting coordinates (`None → [0,0,0]`; length 3 → as-is; anything else →
append a `0`), calls `BaseRobot.__init__` with the parent coordinates,
then overwrites `self.coords` with the normalized list. -/
def FlyingRobot.init (name : String) (weight : ℚ) (coords0 : Option (List ℚ)) :
    FlyingRobot :=
  let p : List ℚ × List ℚ :=
    match coords0 with
    | none => ([0, 0, 0], [0, 0])
    | some c => if c.length = 3 then (c, c.take 2) else (c ++ [0], c)
  let base := BaseRobot.init name weight (some p.2)
  { name := base.name, weight := base.weight, coords := p.1 }

/-- Inherited `go_forward` on a `FlyingRobot` (same body, src/app/main.py:30-36). -/
def FlyingRobot.go_forward (r : FlyingRobot) (step : ℚ) : Option FlyingRobot :=
  (addAt r.coords 1 step).map fun c => { r with coords := c }

/-- Inherited `go_back` on a `FlyingRobot` (src/app/main.py:38-44). -/
def FlyingRobot.go_back (r : FlyingRobot) (step : ℚ) : Option FlyingRobot :=
  (subAt r.coords 1 step).map fun c => { r with coords := c }

/-- Inherited `go_right` on a `FlyingRobot` (src/app/main.py:46-52). -/
def FlyingRobot.go_right (r : FlyingRobot) (step : ℚ) : Option FlyingRobot :=
  (addAt r.coords 0 step).map fun c => { r with coords := c }

/-- Inherited `go_left` on a `FlyingRobot` (src/app/main.py:54-60). -/
def FlyingRobot.go_left (r : FlyingRobot) (step : ℚ) : Option FlyingRobot :=
  (subAt r.coords 0 step).map fun c => { r with coords := c }

/-- `FlyingRobot.go_up` (src/app/main.py:98-104): `self.coords[2] += step`. -/
def FlyingRobot.go_up (r : FlyingRobot) (step : ℚ) : Option FlyingRobot :=
  (addAt r.coords 2 step).map fun c => { r with coords := c }

/-- `FlyingRobot.go_down` (src/app/main.py:106-112): `self.coords[2] -= step`. -/
def FlyingRobot.go_down (r : FlyingRobot) (step : ℚ) : Option FlyingRobot :=
  (subAt r.coords 2 step).map fun c => { r with coords := c }

/-- Inherited `get_info` on a `FlyingRobot` (src/app/main.py:62-68). -/
def FlyingRobot.get_info (r : FlyingRobot) : String × FlyingRobot :=
  ("Robot: " ++ r.name ++ ", Weight: " ++ pyFloatStr r.weight, r)

/-- State of a `DeliveryDrone` (src/app/main.py:115-162): a flying robot
plus a maximum load weight and an optional currently hooked cargo. -/
structure DeliveryDrone where
  name : String
  weight : ℚ
  coords : List ℚ
  max_load_weight : ℚ
  current_load : Option Cargo
deriving DecidableEq, Repr

/-- `DeliveryDrone.hook_load` (src/app/main.py:143-155): sets
`current_load` to the cargo iff no cargo is loaded and the cargo's weight
is at most `max_load_weight`; otherwise the body does nothing. -/
def DeliveryDrone.hook_load (d : DeliveryDrone) (cargo : Cargo) : DeliveryDrone :=
  if d.current_load = none ∧ cargo.weight ≤ d.max_load_weight then
    { d with current_load := some cargo }
  else d

/-- `DeliveryDrone.unhook_load` (src/app/main.py:157-162):
`self.current_load = None`. -/
def DeliveryDrone.unhook_load (d : DeliveryDrone) : DeliveryDrone :=
  { d with current_load := none }

/-- `DeliveryDrone.__init__` (src/app/main.py:116-141): calls
`FlyingRobot.__init__`, sets `max_load_weight`, sets `current_load` to
`None`, then — if an initial cargo was supplied — attempts to hook it via
`hook_load`. -/
def DeliveryDrone.init (name : String) (weight : ℚ) (coords0 : Option (List ℚ))
    (max_load_weight : ℚ) (current_load : Option Cargo) : DeliveryDrone :=
  let f := FlyingRobot.init name weight coords0
  let d : DeliveryDrone :=
    { name := f.name, weight := f.weight, coords := f.coords
      max_load_weight := max_load_weight, current_load := none }
  match current_load with
  | some c => d.hook_load c
  | none => d

/-- `DeliveryDrone` construction using the defaults of the `__init__`
signature for the last two parameters (src/app/main.py:121-122:
`max_load_weight: float = 0`, `current_load: Optional["Cargo"] = None`). -/
def DeliveryDrone.initDefault (name : String) (weight : ℚ)
    (coords0 : Option (List ℚ)) : DeliveryDrone :=
  DeliveryDrone.init name weight coords0 0 none

/-- Inherited `go_forward` on a `DeliveryDrone` (src/app/main.py:30-36). -/
def DeliveryDrone.go_forward (d : DeliveryDrone) (step : ℚ) : Option DeliveryDrone :=
  (addAt d.coords 1 step).map fun c => { d with coords := c }

/-- Inherited `go_back` on a `DeliveryDrone` (src/app/main.py:38-44). -/
def DeliveryDrone.go_back (d : DeliveryDrone) (step : ℚ) : Option DeliveryDrone :=
  (subAt d.coords 1 step).map fun c => { d with coords := c }

/-- Inherited `go_right` on a `DeliveryDrone` (src/app/main.py:46-52). -/
def DeliveryDrone.go_right (d : DeliveryDrone) (step : ℚ) : Option DeliveryDrone :=
  (addAt d.coords 0 step).map fun c => { d with coords := c }

/-- Inherited `go_left` on a `DeliveryDrone` (src/app/main.py:54-60). -/
def DeliveryDrone.go_left (d : DeliveryDrone) (step : ℚ) : Option DeliveryDrone :=
  (subAt d.coords 0 step).map fun c => { d with coords := c }

/-- Inherited `go_up` on a `DeliveryDrone` (src/app/main.py:98-104). -/
def DeliveryDrone.go_up (d : DeliveryDrone) (step : ℚ) : Option DeliveryDrone :=
  (addAt d.coords 2 step).map fun c => { d with coords := c }

/-- Inherited `go_down` on a `DeliveryDrone` (src/app/main.py:106-112). -/
def DeliveryDrone.go_down (d : DeliveryDrone) (step : ℚ) : Option DeliveryDrone :=
  (subAt d.coords 2 step).map fun c => { d with coords := c }

/-- Inherited `get_info` on a `DeliveryDrone` (src/app/main.py:62-68). -/
def DeliveryDrone.get_info (d : DeliveryDrone) : String × DeliveryDrone :=
  ("Robot: " ++ d.name ++ ", Weight: " ++ pyFloatStr d.weight, d)

/-! ### Method-call languages, for "every sequence of operations" claims -/

/-- One public method call on a `BaseRobot`. -/
inductive BaseOp
  | forward (s : ℚ)
  | back (s : ℚ)
  | right (s : ℚ)
  | left (s : ℚ)
  | info

/-- Execute one `BaseRobot` method call (`none` = the call raised). -/
def BaseRobot.applyOp (r : BaseRobot) : BaseOp → Option BaseRobot
  | .forward s => r.go_forward s
  | .back s => r.go_back s
  | .right s => r.go_right s
  | .left s => r.go_left s
  | .info => some r.get_info.2

/-- Execute a sequence of `BaseRobot` method calls. -/
def BaseRobot.runOps (r : BaseRobot) : List BaseOp → Option BaseRobot
  | [] => some r
  | op :: rest => (r.applyOp op).bind fun r' => r'.runOps rest

/-- One public method call on a `FlyingRobot`. -/
inductive FlyOp
  | forward (s : ℚ)
  | back (s : ℚ)
  | right (s : ℚ)
  | left (s : ℚ)
  | up (s : ℚ)
  | down (s : ℚ)
  | info

/-- Execute one `FlyingRobot` method call (`none` = the call raised). -/
def FlyingRobot.applyOp (r : FlyingRobot) : FlyOp → Option FlyingRobot
  | .forward s => r.go_forward s
  | .back s => r.go_back s
  | .right s => r.go_right s
  | .left s => r.go_left s
  | .up s => r.go_up s
  | .down s => r.go_down s
  | .info => some r.get_info.2

/-- Execute a sequence of `FlyingRobot` method calls. -/
def FlyingRobot.runOps (r : FlyingRobot) : List FlyOp → Option FlyingRobot
  | [] => some r
  | op :: rest => (r.applyOp op).bind fun r' => r'.runOps rest

/-- One public method call on a `DeliveryDrone`. -/
inductive DroneOp
  | forward (s : ℚ)
  | back (s : ℚ)
  | right (s : ℚ)
  | left (s : ℚ)
  | up (s : ℚ)
  | down (s : ℚ)
  | hook (c : Cargo)
  | unhook
  | info

/-- Execute one `DeliveryDrone` method call (`none` = the call raised). -/
def DeliveryDrone.applyOp (d : DeliveryDrone) : DroneOp → Option DeliveryDrone
  | .forward s => d.go_forward s
  | .back s => d.go_back s
  | .right s => d.go_right s
  | .left s => d.go_left s
  | .up s => d.go_up s
  | .down s => d.go_down s
  | .hook c => some (d.hook_load c)
  | .unhook => some d.unhook_load
  | .info => some d.get_info.2

/-- Execute a sequence of `DeliveryDrone` method calls. -/
def DeliveryDrone.runOps (d : DeliveryDrone) : List DroneOp → Option DeliveryDrone
  | [] => some d
  | op :: rest => (d.applyOp op).bind fun d' => d'.runOps rest

/-- The cargo invariant of the spec: `current_load` is either absent or
refers to a cargo whose weight is at most `max_load_weight`. -/
def DeliveryDrone.loadInv (d : DeliveryDrone) : Prop :=
  ∀ c : Cargo, d.current_load = some c → c.weight ≤ d.max_load_weight

instance (d : DeliveryDrone) : Decidable d.loadInv := by
  unfold DeliveryDrone.loadInv
  cases d.current_load with
  | none => exact .isTrue (by simp)
  | some c => exact decidable_of_iff (c.weight ≤ d.max_load_weight) (by simp)

/-- `n` successive calls of `go_forward(1)` (src/app/main.py:30-36 with
the default `step = 1`), propagating a raised `IndexError` as `none`. -/
def BaseRobot.repeatGoForwardOne : Nat → BaseRobot → Option BaseRobot
  | 0, r => some r
  | n + 1, r => (r.go_forward 1).bind (BaseRobot.repeatGoForwardOne n)

/-- Frame of a `BaseRobot` movement call touching only coordinate `i`:
name, weight, the coordinate count and every other coordinate are kept. -/
def BaseFrame (r r' : BaseRobot) (i : Nat) : Prop :=
  r'.name = r.name ∧ r'.weight = r.weight ∧
  r'.coords.length = r.coords.length ∧ ∀ j, j ≠ i → r'.coords[j]? = r.coords[j]?

/-- Frame of a `FlyingRobot` movement call touching only coordinate `i`. -/
def FlyFrame (r r' : FlyingRobot) (i : Nat) : Prop :=
  r'.name = r.name ∧ r'.weight = r.weight ∧
  r'.coords.length = r.coords.length ∧ ∀ j, j ≠ i → r'.coords[j]? = r.coords[j]?

/-- Frame of a `DeliveryDrone` movement call touching only coordinate `i`:
additionally the capacity and the hooked cargo are kept. -/
def DroneFrame (d d' : DeliveryDrone) (i : Nat) : Prop :=
  d'.name = d.name ∧ d'.weight = d.weight ∧
  d'.max_load_weight = d.max_load_weight ∧ d'.current_load = d.current_load ∧
  d'.coords.length = d.coords.length ∧ ∀ j, j ≠ i → d'.coords[j]? = d.coords[j]?

/-! ### Helper lemmas -/

theorem List.set_get_self (l : List ℚ) (i : Nat) (h : i < l.length) :
    l.set i l[i] = l := by
  induction l generalizing i with
  | nil => simp at h
  | cons a t ih =>
    cases i with
    | zero => simp
    | succ j => simpa using ih j (by simpa using h)

theorem addAt_eq_some {l : List ℚ} {i : Nat} {s : ℚ} (h : i < l.length) :
    addAt l i s = some (l.set i (l.get ⟨i, h⟩ + s)) := by
  simp [addAt, h]

theorem subAt_eq_some {l : List ℚ} {i : Nat} {s : ℚ} (h : i < l.length) :
    subAt l i s = some (l.set i (l.get ⟨i, h⟩ - s)) := by
  simp [subAt, h]

theorem addAt_some {l l' : List ℚ} {i : Nat} {s : ℚ} (h : addAt l i s = some l') :
    ∃ hi : i < l.length, l' = l.set i (l.get ⟨i, hi⟩ + s) := by
  by_cases hi : i < l.length
  · exact ⟨hi, by rw [addAt_eq_some hi] at h; exact (Option.some_inj.mp h).symm⟩
  · simp [addAt, hi] at h

theorem subAt_some {l l' : List ℚ} {i : Nat} {s : ℚ} (h : subAt l i s = some l') :
    ∃ hi : i < l.length, l' = l.set i (l.get ⟨i, hi⟩ - s) := by
  by_cases hi : i < l.length
  · exact ⟨hi, by rw [subAt_eq_some hi] at h; exact (Option.some_inj.mp h).symm⟩
  · simp [subAt, hi] at h

theorem addAt_length {l l' : List ℚ} {i : Nat} {s : ℚ}
    (h : addAt l i s = some l') : l'.length = l.length := by
  obtain ⟨hi, rfl⟩ := addAt_some h
  simp

theorem subAt_length {l l' : List ℚ} {i : Nat} {s : ℚ}
    (h : subAt l i s = some l') : l'.length = l.length := by
  obtain ⟨hi, rfl⟩ := subAt_some h
  simp

theorem addAt_getElem_ne {l l' : List ℚ} {i : Nat} {s : ℚ}
    (h : addAt l i s = some l') : ∀ j, j ≠ i → l'[j]? = l[j]? := by
  obtain ⟨hi, rfl⟩ := addAt_some h
  intro j hj
  exact List.getElem?_set_ne (Ne.symm hj)

theorem subAt_getElem_ne {l l' : List ℚ} {i : Nat} {s : ℚ}
    (h : subAt l i s = some l') : ∀ j, j ≠ i → l'[j]? = l[j]? := by
  obtain ⟨hi, rfl⟩ := subAt_some h
  intro j hj
  exact List.getElem?_set_ne (Ne.symm hj)

/-- Adding then subtracting the same step at the same index restores the list. -/
theorem subAt_addAt {l l' : List ℚ} {i : Nat} {s : ℚ}
    (h : addAt l i s = some l') : subAt l' i s = some l := by
  obtain ⟨hi, rfl⟩ := addAt_some h
  have hi' : i < (l.set i (l.get ⟨i, hi⟩ + s)).length := by simpa using hi
  rw [subAt_eq_some hi']
  congr 1
  rw [List.get_set_eq, List.set_set]
  simp only [add_sub_cancel_right]
  exact List.set_get_self l i hi

/-- Subtracting then adding the same step at the same index restores the list. -/
theorem addAt_subAt {l l' : List ℚ} {i : Nat} {s : ℚ}
    (h : subAt l i s = some l') : addAt l' i s = some l := by
  obtain ⟨hi, rfl⟩ := subAt_some h
  have hi' : i < (l.set i (l.get ⟨i, hi⟩ - s)).length := by simpa using hi
  rw [addAt_eq_some hi']
  congr 1
  rw [List.get_set_eq, List.set_set]
  simp only [sub_add_cancel]
  exact List.set_get_self l i hi

/-- Key behaviour of `l[i] += s`: when index `i` holds `v`, the update
succeeds, the index now holds `v + s`, and `l[i] -= s` undoes it. -/
theorem addAt_spec {l : List ℚ} {i : Nat} {v : ℚ} (h : l[i]? = some v) (s : ℚ) :
    ∃ l', addAt l i s = some l' ∧ l'[i]? = some (v + s) ∧ subAt l' i s = some l := by
  obtain ⟨hi, hv⟩ := List.getElem?_eq_some.mp h
  refine ⟨_, addAt_eq_some hi, ?_, subAt_addAt (addAt_eq_some hi)⟩
  simp [hi, hv]

/-- Key behaviour of `l[i] -= s`: when index `i` holds `v`, the update
succeeds, the index now holds `v - s`, and `l[i] += s` undoes it. -/
theorem subAt_spec {l : List ℚ} {i : Nat} {v : ℚ} (h : l[i]? = some v) (s : ℚ) :
    ∃ l', subAt l i s = some l' ∧ l'[i]? = some (v - s) ∧ addAt l' i s = some l := by
  obtain ⟨hi, hv⟩ := List.getElem?_eq_some.mp h
  refine ⟨_, subAt_eq_some hi, ?_, addAt_subAt (subAt_eq_some hi)⟩
  simp [hi, hv]

/-- Two successive in-place additions at the same index amount to one
addition of the sum. -/
theorem addAt_addAt {l : List ℚ} {i : Nat} (h : i < l.length) (s t : ℚ) :
    (addAt l i s).bind (fun l' => addAt l' i t) = addAt l i (s + t) := by
  rw [addAt_eq_some h]
  have h' : i < (l.set i (l.get ⟨i, h⟩ + s)).length := by simpa using h
  rw [Option.some_bind, addAt_eq_some h', addAt_eq_some h]
  congr 1
  rw [List.get_set_eq, List.set_set]
  congr 1
  ring

theorem base_map_some {r r' : BaseRobot} {o : Option (List ℚ)}
    (h : (o.map fun c => { r with coords := c }) = some r') :
    ∃ c, o = some c ∧ r' = { r with coords := c } := by
  cases o <;> simp_all

theorem hook_load_loadInv (d : DeliveryDrone) (c : Cargo) (h : d.loadInv) :
    (d.hook_load c).loadInv := by
  intro c' hc'
  by_cases hcond : d.current_load = none ∧ c.weight ≤ d.max_load_weight
  · simp [DeliveryDrone.hook_load, hcond] at hc' ⊢
    subst hc'
    exact hcond.2
  · simp [DeliveryDrone.hook_load, hcond] at hc' ⊢
    exact h c' hc'

theorem fly_map_some {r r' : FlyingRobot} {o : Option (List ℚ)}
    (h : (o.map fun c => { r with coords := c }) = some r') :
    ∃ c, o = some c ∧ r' = { r with coords := c } := by
  cases o <;> simp_all

theorem drone_map_some {d d' : DeliveryDrone} {o : Option (List ℚ)}
    (h : (o.map fun c => { d with coords := c }) = some d') :
    ∃ c, o = some c ∧ d' = { d with coords := c } := by
  cases o <;> simp_all


theorem go_forward_frame {r r' : BaseRobot} {s : ℚ} (h : r.go_forward s = some r') :
    BaseFrame r r' 1 := by
  obtain ⟨c, hc, rfl⟩ := base_map_some h
  exact ⟨rfl, rfl, addAt_length hc, addAt_getElem_ne hc⟩

theorem go_back_frame {r r' : BaseRobot} {s : ℚ} (h : r.go_back s = some r') :
    BaseFrame r r' 1 := by
  obtain ⟨c, hc, rfl⟩ := base_map_some h
  exact ⟨rfl, rfl, subAt_length hc, subAt_getElem_ne hc⟩

theorem go_right_frame {r r' : BaseRobot} {s : ℚ} (h : r.go_right s = some r') :
    BaseFrame r r' 0 := by
  obtain ⟨c, hc, rfl⟩ := base_map_some h
  exact ⟨rfl, rfl, addAt_length hc, addAt_getElem_ne hc⟩

theorem go_left_frame {r r' : BaseRobot} {s : ℚ} (h : r.go_left s = some r') :
    BaseFrame r r' 0 := by
  obtain ⟨c, hc, rfl⟩ := base_map_some h
  exact ⟨rfl, rfl, subAt_length hc, subAt_getElem_ne hc⟩

theorem fly_go_forward_frame {r r' : FlyingRobot} {s : ℚ}
    (h : r.go_forward s = some r') : FlyFrame r r' 1 := by
  obtain ⟨c, hc, rfl⟩ := fly_map_some h
  exact ⟨rfl, rfl, addAt_length hc, addAt_getElem_ne hc⟩

theorem fly_go_back_frame {r r' : FlyingRobot} {s : ℚ}
    (h : r.go_back s = some r') : FlyFrame r r' 1 := by
  obtain ⟨c, hc, rfl⟩ := fly_map_some h
  exact ⟨rfl, rfl, subAt_length hc, subAt_getElem_ne hc⟩

theorem fly_go_right_frame {r r' : FlyingRobot} {s : ℚ}
    (h : r.go_right s = some r') : FlyFrame r r' 0 := by
  obtain ⟨c, hc, rfl⟩ := fly_map_some h
  exact ⟨rfl, rfl, addAt_length hc, addAt_getElem_ne hc⟩

theorem fly_go_left_frame {r r' : FlyingRobot} {s : ℚ}
    (h : r.go_left s = some r') : FlyFrame r r' 0 := by
  obtain ⟨c, hc, rfl⟩ := fly_map_some h
  exact ⟨rfl, rfl, subAt_length hc, subAt_getElem_ne hc⟩

theorem fly_go_up_frame {r r' : FlyingRobot} {s : ℚ}
    (h : r.go_up s = some r') : FlyFrame r r' 2 := by
  obtain ⟨c, hc, rfl⟩ := fly_map_some h
  exact ⟨rfl, rfl, addAt_length hc, addAt_getElem_ne hc⟩

theorem fly_go_down_frame {r r' : FlyingRobot} {s : ℚ}
    (h : r.go_down s = some r') : FlyFrame r r' 2 := by
  obtain ⟨c, hc, rfl⟩ := fly_map_some h
  exact ⟨rfl, rfl, subAt_length hc, subAt_getElem_ne hc⟩

theorem drone_go_forward_frame {d d' : DeliveryDrone} {s : ℚ}
    (h : d.go_forward s = some d') : DroneFrame d d' 1 := by
  obtain ⟨c, hc, rfl⟩ := drone_map_some h
  exact ⟨rfl, rfl, rfl, rfl, addAt_length hc, addAt_getElem_ne hc⟩

theorem drone_go_back_frame {d d' : DeliveryDrone} {s : ℚ}
    (h : d.go_back s = some d') : DroneFrame d d' 1 := by
  obtain ⟨c, hc, rfl⟩ := drone_map_some h
  exact ⟨rfl, rfl, rfl, rfl, subAt_length hc, subAt_getElem_ne hc⟩

theorem drone_go_right_frame {d d' : DeliveryDrone} {s : ℚ}
    (h : d.go_right s = some d') : DroneFrame d d' 0 := by
  obtain ⟨c, hc, rfl⟩ := drone_map_some h
  exact ⟨rfl, rfl, rfl, rfl, addAt_length hc, addAt_getElem_ne hc⟩

theorem drone_go_left_frame {d d' : DeliveryDrone} {s : ℚ}
    (h : d.go_left s = some d') : DroneFrame d d' 0 := by
  obtain ⟨c, hc, rfl⟩ := drone_map_some h
  exact ⟨rfl, rfl, rfl, rfl, subAt_length hc, subAt_getElem_ne hc⟩

theorem drone_go_up_frame {d d' : DeliveryDrone} {s : ℚ}
    (h : d.go_up s = some d') : DroneFrame d d' 2 := by
  obtain ⟨c, hc, rfl⟩ := drone_map_some h
  exact ⟨rfl, rfl, rfl, rfl, addAt_length hc, addAt_getElem_ne hc⟩

theorem drone_go_down_frame {d d' : DeliveryDrone} {s : ℚ}
    (h : d.go_down s = some d') : DroneFrame d d' 2 := by
  obtain ⟨c, hc, rfl⟩ := drone_map_some h
  exact ⟨rfl, rfl, rfl, rfl, subAt_length hc, subAt_getElem_ne hc⟩

theorem loadInv_transfer {d d' : DeliveryDrone}
    (hm : d'.max_load_weight = d.max_load_weight)
    (hl : d'.current_load = d.current_load) (h : d.loadInv) : d'.loadInv := by
  intro c hc
  rw [hm]
  exact h c (hl ▸ hc)

theorem hook_load_coords (d : DeliveryDrone) (c : Cargo) :
    (d.hook_load c).coords = d.coords := by
  unfold DeliveryDrone.hook_load
  split <;> rfl

theorem hook_load_name (d : DeliveryDrone) (c : Cargo) :
    (d.hook_load c).name = d.name := by
  unfold DeliveryDrone.hook_load
  split <;> rfl

theorem hook_load_weight (d : DeliveryDrone) (c : Cargo) :
    (d.hook_load c).weight = d.weight := by
  unfold DeliveryDrone.hook_load
  split <;> rfl

theorem hook_load_max (d : DeliveryDrone) (c : Cargo) :
    (d.hook_load c).max_load_weight = d.max_load_weight := by
  unfold DeliveryDrone.hook_load
  split <;> rfl

theorem applyOp_loadInv {d d' : DeliveryDrone} {op : DroneOp}
    (h : d.loadInv) (hop : d.applyOp op = some d') : d'.loadInv := by
  cases op with
  | forward s =>
    have f := drone_go_forward_frame hop
    exact loadInv_transfer f.2.2.1 f.2.2.2.1 h
  | back s =>
    have f := drone_go_back_frame hop
    exact loadInv_transfer f.2.2.1 f.2.2.2.1 h
  | right s =>
    have f := drone_go_right_frame hop
    exact loadInv_transfer f.2.2.1 f.2.2.2.1 h
  | left s =>
    have f := drone_go_left_frame hop
    exact loadInv_transfer f.2.2.1 f.2.2.2.1 h
  | up s =>
    have f := drone_go_up_frame hop
    exact loadInv_transfer f.2.2.1 f.2.2.2.1 h
  | down s =>
    have f := drone_go_down_frame hop
    exact loadInv_transfer f.2.2.1 f.2.2.2.1 h
  | hook c =>
    obtain rfl : d.hook_load c = d' := Option.some_inj.mp hop
    exact hook_load_loadInv d c h
  | unhook =>
    obtain rfl : d.unhook_load = d' := Option.some_inj.mp hop
    intro c hc
    simp [DeliveryDrone.unhook_load] at hc
  | info =>
    obtain rfl : d = d' := Option.some_inj.mp hop
    exact h

theorem applyOp_coords_length {d d' : DeliveryDrone} {op : DroneOp}
    (hop : d.applyOp op = some d') : d'.coords.length = d.coords.length := by
  cases op with
  | forward s => exact (drone_go_forward_frame hop).2.2.2.2.1
  | back s => exact (drone_go_back_frame hop).2.2.2.2.1
  | right s => exact (drone_go_right_frame hop).2.2.2.2.1
  | left s => exact (drone_go_left_frame hop).2.2.2.2.1
  | up s => exact (drone_go_up_frame hop).2.2.2.2.1
  | down s => exact (drone_go_down_frame hop).2.2.2.2.1
  | hook c =>
    obtain rfl : d.hook_load c = d' := Option.some_inj.mp hop
    rw [hook_load_coords]
  | unhook =>
    obtain rfl : d.unhook_load = d' := Option.some_inj.mp hop
    rfl
  | info =>
    obtain rfl : d = d' := Option.some_inj.mp hop
    rfl

theorem runOps_coords_length {d d' : DeliveryDrone} {ops : List DroneOp}
    (h : d.runOps ops = some d') : d'.coords.length = d.coords.length := by
  induction ops generalizing d with
  | nil =>
    obtain rfl : d = d' := Option.some_inj.mp h
    rfl
  | cons op rest ih =>
    rw [DeliveryDrone.runOps] at h
    obtain ⟨mid, hmid, hrest⟩ := Option.bind_eq_some.mp h
    rw [ih hrest, applyOp_coords_length hmid]

theorem runOps_loadInv {d d' : DeliveryDrone} {ops : List DroneOp}
    (h0 : d.loadInv) (h : d.runOps ops = some d') : d'.loadInv := by
  induction ops generalizing d with
  | nil =>
    obtain rfl : d = d' := Option.some_inj.mp h
    exact h0
  | cons op rest ih =>
    rw [DeliveryDrone.runOps] at h
    obtain ⟨mid, hmid, hrest⟩ := Option.bind_eq_some.mp h
    exact ih (applyOp_loadInv h0 hmid) hrest

theorem base_applyOp_coords_length {r r' : BaseRobot} {op : BaseOp}
    (hop : r.applyOp op = some r') : r'.coords.length = r.coords.length := by
  cases op with
  | forward s => exact (go_forward_frame hop).2.2.1
  | back s => exact (go_back_frame hop).2.2.1
  | right s => exact (go_right_frame hop).2.2.1
  | left s => exact (go_left_frame hop).2.2.1
  | info =>
    obtain rfl : r = r' := Option.some_inj.mp hop
    rfl

theorem base_runOps_coords_length {r r' : BaseRobot} {ops : List BaseOp}
    (h : r.runOps ops = some r') : r'.coords.length = r.coords.length := by
  induction ops generalizing r with
  | nil =>
    obtain rfl : r = r' := Option.some_inj.mp h
    rfl
  | cons op rest ih =>
    rw [BaseRobot.runOps] at h
    obtain ⟨mid, hmid, hrest⟩ := Option.bind_eq_some.mp h
    rw [ih hrest, base_applyOp_coords_length hmid]

theorem fly_applyOp_coords_length {r r' : FlyingRobot} {op : FlyOp}
    (hop : r.applyOp op = some r') : r'.coords.length = r.coords.length := by
  cases op with
  | forward s => exact (fly_go_forward_frame hop).2.2.1
  | back s => exact (fly_go_back_frame hop).2.2.1
  | right s => exact (fly_go_right_frame hop).2.2.1
  | left s => exact (fly_go_left_frame hop).2.2.1
  | up s => exact (fly_go_up_frame hop).2.2.1
  | down s => exact (fly_go_down_frame hop).2.2.1
  | info =>
    obtain rfl : r = r' := Option.some_inj.mp hop
    rfl

theorem fly_runOps_coords_length {r r' : FlyingRobot} {ops : List FlyOp}
    (h : r.runOps ops = some r') : r'.coords.length = r.coords.length := by
  induction ops generalizing r with
  | nil =>
    obtain rfl : r = r' := Option.some_inj.mp h
    rfl
  | cons op rest ih =>
    rw [FlyingRobot.runOps] at h
    obtain ⟨mid, hmid, hrest⟩ := Option.bind_eq_some.mp h
    rw [ih hrest, fly_applyOp_coords_length hmid]

/-! ### Claims -/

/-- C1 (counterexample): the claim asserts the constructed position always
has length 3, but `FlyingRobot.__init__` appends a single `0` to an input
of any length other than 3, so the length-1 input `[5]` yields the
length-2 position `[5, 0]`. -/
theorem C1_counterexample :
    (FlyingRobot.init "f" 1 (some [5])).coords.length ≠ 3 := by decide

/-- C1 (amended): constructing a `FlyingRobot` normalizes the starting
position: with no position argument the position is `[0,0,0]`; with a
length-3 input the position is that input unchanged; with an input of any
other length a `0` is appended (which produces a length-3 position
exactly when the input had length 2; in particular `[a,b]` yields
`[a,b,0]`). -/
theorem C1_aerial_normalization :
    (∀ (n : String) (w : ℚ), (FlyingRobot.init n w none).coords = [0, 0, 0]) ∧
    (∀ (n : String) (w : ℚ) (c : List ℚ), c.length = 3 →
      (FlyingRobot.init n w (some c)).coords = c) ∧
    (∀ (n : String) (w : ℚ) (c : List ℚ), c.length ≠ 3 →
      (FlyingRobot.init n w (some c)).coords = c ++ [0]) ∧
    (∀ (n : String) (w a b : ℚ),
      (FlyingRobot.init n w (some [a, b])).coords = [a, b, 0]) := by
  refine ⟨fun n w => rfl, fun n w c h => ?_, fun n w c h => ?_, fun n w a b => ?_⟩
  · simp [FlyingRobot.init, h]
  · simp [FlyingRobot.init, h]
  · simp [FlyingRobot.init]

/-- C1 (witness): the amended theorem applied to the concrete inputs
`[4,5,6]` (length 3, kept) and `[7]` (length ≠ 3, a `0` appended). -/
theorem C1_aerial_normalization_witness :
    (FlyingRobot.init "f" 1 (some [4, 5, 6])).coords = [4, 5, 6] ∧
    (FlyingRobot.init "f" 1 (some [7])).coords = [7, 0] :=
  ⟨C1_aerial_normalization.2.1 "f" 1 [4, 5, 6] rfl,
   C1_aerial_normalization.2.2.1 "f" 1 [7] (by decide)⟩

/-- C2: `hook_load` attaches the cargo exactly when no cargo is attached
and the cargo's weight is at most `max_load_weight`; when either condition
fails the drone is left completely unchanged (the function is total, so no
error is raised); in particular a second `hook_load` on an already loaded
drone never replaces the existing cargo. -/
theorem C2_hook_load_guard :
    ∀ (d : DeliveryDrone) (c : Cargo),
      (d.current_load = none ∧ c.weight ≤ d.max_load_weight →
        d.hook_load c = { d with current_load := some c }) ∧
      (¬(d.current_load = none ∧ c.weight ≤ d.max_load_weight) →
        d.hook_load c = d) ∧
      (∀ c₀ : Cargo, d.current_load = some c₀ →
        (d.hook_load c).current_load = some c₀) := by
  intro d c
  refine ⟨fun h => ?_, fun h => ?_, fun c₀ h => ?_⟩
  · unfold DeliveryDrone.hook_load
    rw [if_pos h]
  · unfold DeliveryDrone.hook_load
    rw [if_neg h]
  · have hne : ¬(d.current_load = none ∧ c.weight ≤ d.max_load_weight) := by
      simp [h]
    unfold DeliveryDrone.hook_load
    rw [if_neg hne, h]

/-- C2 (witness): on a fresh drone of capacity 10, hooking a weight-8
cargo attaches it; a second hook of a weight-3 cargo leaves the weight-8
cargo in place. -/
theorem C2_hook_load_guard_witness :
    (DeliveryDrone.init "D1" 5 none 10 none).hook_load ⟨8⟩ =
      { DeliveryDrone.init "D1" 5 none 10 none with current_load := some ⟨8⟩ } ∧
    (({ name := "D1", weight := 5, coords := [0, 0, 0], max_load_weight := 10,
        current_load := some ⟨8⟩ } : DeliveryDrone).hook_load ⟨3⟩).current_load =
      some ⟨8⟩ :=
  ⟨(C2_hook_load_guard _ _).1 ⟨rfl, show (8 : ℚ) ≤ 10 by norm_num⟩,
   (C2_hook_load_guard _ _).2.2 ⟨8⟩ rfl⟩

/-- C3: the invariant "`current_load` is absent or refers to a cargo of
weight at most `max_load_weight`" holds after any construction (in
particular construction with an over-capacity initial cargo silently
yields a drone with no cargo) and is preserved by every public method
call (`hook_load`, `unhook_load` and all movement operations). -/
theorem C3_load_invariant :
    (∀ (n : String) (w : ℚ) (c0 : Option (List ℚ)) (m : ℚ) (l : Option Cargo),
      (DeliveryDrone.init n w c0 m l).loadInv) ∧
    (∀ (n : String) (w : ℚ) (c0 : Option (List ℚ)) (m : ℚ) (c : Cargo),
      m < c.weight → (DeliveryDrone.init n w c0 m (some c)).current_load = none) ∧
    (∀ (d : DeliveryDrone) (op : DroneOp) (d' : DeliveryDrone),
      d.loadInv → d.applyOp op = some d' → d'.loadInv) := by
  refine ⟨fun n w c0 m l => ?_, fun n w c0 m c hm => ?_,
    fun d op d' h hop => applyOp_loadInv h hop⟩
  · unfold DeliveryDrone.init
    cases l with
    | none => exact fun c hc => by simp at hc
    | some c => exact hook_load_loadInv _ c (fun c' hc' => by simp at hc')
  · simp [DeliveryDrone.init, DeliveryDrone.hook_load, not_le.mpr hm]

/-- C3 (witness): a drone built with an over-capacity initial cargo
(weight 2 against capacity 1) ends up empty; hooking a weight-3 cargo on
an empty capacity-10 drone preserves the invariant. -/
theorem C3_load_invariant_witness :
    (DeliveryDrone.init "D" 1 none 1 (some ⟨2⟩)).current_load = none ∧
    ((DeliveryDrone.init "D" 1 none 10 none).hook_load ⟨3⟩).loadInv :=
  ⟨C3_load_invariant.2.1 "D" 1 none 1 ⟨2⟩ (by norm_num),
   C3_load_invariant.2.2 (DeliveryDrone.init "D" 1 none 10 none) (.hook ⟨3⟩) _
     (fun c hc => nomatch hc) rfl⟩

/-- C5: `unhook_load` always results in no current cargo; when no cargo
was attached it is a no-op leaving the state unchanged, it is idempotent,
and (being a total function) it never raises. -/
theorem C5_unhook_load_clears :
    ∀ d : DeliveryDrone,
      d.unhook_load.current_load = none ∧
      (d.current_load = none → d.unhook_load = d) ∧
      d.unhook_load.unhook_load = d.unhook_load := by
  intro d
  refine ⟨rfl, fun h => ?_, rfl⟩
  cases d
  simp_all [DeliveryDrone.unhook_load]

/-- C5 (witness): unhooking on a freshly constructed (empty) drone leaves
it exactly as it was. -/
theorem C5_unhook_load_clears_witness :
    (DeliveryDrone.init "d" 1 none 0 none).unhook_load =
      DeliveryDrone.init "d" 1 none 0 none :=
  (C5_unhook_load_clears _).2.1 rfl

theorem drone_init_coords (n : String) (w : ℚ) (c0 : Option (List ℚ)) (m : ℚ)
    (l : Option Cargo) :
    (DeliveryDrone.init n w c0 m l).coords = (FlyingRobot.init n w c0).coords := by
  unfold DeliveryDrone.init
  cases l with
  | none => rfl
  | some c => exact hook_load_coords _ c

/-- C4 (counterexample): `BaseRobot.__init__` stores any supplied position
unchanged, so a ground entity constructed with the length-3 list
`[1, 2, 3]` has a position of length 3, not 2. -/
theorem C4_counterexample :
    (BaseRobot.init "r" 0 (some [1, 2, 3])).coords.length ≠ 2 := by decide

/-- C4 (amended): provided the supplied starting position is absent or of
length 2 for a ground entity, and absent or of length 2 or 3 for an
aerial entity or drone, the position length equals the declared
dimensionality (2 / 3) after construction, and every sequence of method
calls preserves the position length. -/
theorem C4_dimension_invariant :
    (∀ (n : String) (w : ℚ), (BaseRobot.init n w none).coords.length = 2) ∧
    (∀ (n : String) (w : ℚ) (c : List ℚ), c.length = 2 →
      (BaseRobot.init n w (some c)).coords.length = 2) ∧
    (∀ (n : String) (w : ℚ), (FlyingRobot.init n w none).coords.length = 3) ∧
    (∀ (n : String) (w : ℚ) (c : List ℚ), c.length = 2 ∨ c.length = 3 →
      (FlyingRobot.init n w (some c)).coords.length = 3) ∧
    (∀ (n : String) (w m : ℚ) (l : Option Cargo),
      (DeliveryDrone.init n w none m l).coords.length = 3) ∧
    (∀ (n : String) (w : ℚ) (c : List ℚ) (m : ℚ) (l : Option Cargo),
      c.length = 2 ∨ c.length = 3 →
      (DeliveryDrone.init n w (some c) m l).coords.length = 3) ∧
    (∀ (r r' : BaseRobot) (ops : List BaseOp), r.runOps ops = some r' →
      r'.coords.length = r.coords.length) ∧
    (∀ (r r' : FlyingRobot) (ops : List FlyOp), r.runOps ops = some r' →
      r'.coords.length = r.coords.length) ∧
    (∀ (d d' : DeliveryDrone) (ops : List DroneOp), d.runOps ops = some d' →
      d'.coords.length = d.coords.length) := by
  have hfly : ∀ (n : String) (w : ℚ) (c : List ℚ), c.length = 2 ∨ c.length = 3 →
      (FlyingRobot.init n w (some c)).coords.length = 3 := by
    intro n w c h
    rcases h with h | h
    · have hne : c.length ≠ 3 := by omega
      simp [FlyingRobot.init, hne, h]
    · simp [FlyingRobot.init, h]
  refine ⟨fun n w => rfl, fun n w c h => h, fun n w => rfl, hfly,
    fun n w m l => ?_, fun n w c m l h => ?_,
    fun r r' ops h => base_runOps_coords_length h,
    fun r r' ops h => fly_runOps_coords_length h,
    fun d d' ops h => runOps_coords_length h⟩
  · rw [drone_init_coords]
    rfl
  · rw [drone_init_coords]
    exact hfly n w c h

/-- C4 (witness): the amended theorem applied to concrete inputs — a
ground entity built from `[1, 2]`, an aerial entity built from `[1, 2]`,
and a drone running the call sequence `[unhook_load]`. -/
theorem C4_dimension_invariant_witness :
    (BaseRobot.init "b" 1 (some [1, 2])).coords.length = 2 ∧
    (FlyingRobot.init "g" 1 (some [1, 2])).coords.length = 3 ∧
    (DeliveryDrone.init "d" 1 none 0 none).unhook_load.coords.length =
      (DeliveryDrone.init "d" 1 none 0 none).coords.length :=
  ⟨C4_dimension_invariant.2.1 "b" 1 [1, 2] rfl,
   C4_dimension_invariant.2.2.2.1 "g" 1 [1, 2] (Or.inl rfl),
   C4_dimension_invariant.2.2.2.2.2.2.2.2 (DeliveryDrone.init "d" 1 none 0 none)
     (DeliveryDrone.init "d" 1 none 0 none).unhook_load [DroneOp.unhook] rfl⟩

/-- C6: each movement adds its step to the designated coordinate and the
opposite movement is its exact inverse: `go_forward`/`go_back` on index 1
(y), `go_right`/`go_left` on index 0 (x), `go_up`/`go_down` on index 2
(z). -/
theorem C6_move_postcondition_inverse :
    (∀ (r : BaseRobot) (s y0 : ℚ), r.coords[1]? = some y0 →
      r.go_forward s = some { r with coords := r.coords.set 1 (y0 + s) } ∧
      (r.coords.set 1 (y0 + s))[1]? = some (y0 + s) ∧
      ({ r with coords := r.coords.set 1 (y0 + s) } : BaseRobot).go_back s =
        some r) ∧
    (∀ (r : BaseRobot) (s x0 : ℚ), r.coords[0]? = some x0 →
      r.go_right s = some { r with coords := r.coords.set 0 (x0 + s) } ∧
      (r.coords.set 0 (x0 + s))[0]? = some (x0 + s) ∧
      ({ r with coords := r.coords.set 0 (x0 + s) } : BaseRobot).go_left s =
        some r) ∧
    (∀ (r : FlyingRobot) (s z0 : ℚ), r.coords[2]? = some z0 →
      r.go_up s = some { r with coords := r.coords.set 2 (z0 + s) } ∧
      (r.coords.set 2 (z0 + s))[2]? = some (z0 + s) ∧
      ({ r with coords := r.coords.set 2 (z0 + s) } : FlyingRobot).go_down s =
        some r) := by
  have key : ∀ (l : List ℚ) (i : Nat) (s v : ℚ), l[i]? = some v →
      addAt l i s = some (l.set i (v + s)) ∧
      (l.set i (v + s))[i]? = some (v + s) ∧
      subAt (l.set i (v + s)) i s = some l := by
    intro l i s v h
    obtain ⟨hi, hv⟩ := List.getElem?_eq_some.mp h
    have hadd : addAt l i s = some (l.set i (v + s)) := by
      rw [addAt_eq_some hi]
      congr 2
      rw [List.get_eq_getElem, hv]
    exact ⟨hadd, by simp [hi], subAt_addAt hadd⟩
  refine ⟨fun r s y0 h => ?_, fun r s x0 h => ?_, fun r s z0 h => ?_⟩
  · obtain ⟨h1, h2, h3⟩ := key r.coords 1 s y0 h
    exact ⟨by simp [BaseRobot.go_forward, h1], h2,
      by simp [BaseRobot.go_back, h3]⟩
  · obtain ⟨h1, h2, h3⟩ := key r.coords 0 s x0 h
    exact ⟨by simp [BaseRobot.go_right, h1], h2,
      by simp [BaseRobot.go_left, h3]⟩
  · obtain ⟨h1, h2, h3⟩ := key r.coords 2 s z0 h
    exact ⟨by simp [FlyingRobot.go_up, h1], h2,
      by simp [FlyingRobot.go_down, h3]⟩

/-- C6 (witness): on a freshly constructed ground robot (y = 0), moving
forward by 5 puts y at 0 + 5 and moving back by 5 restores the robot. -/
theorem C6_move_postcondition_inverse_witness :
    (BaseRobot.init "b" 1 none).go_forward 5 =
      some { BaseRobot.init "b" 1 none with
             coords := (BaseRobot.init "b" 1 none).coords.set 1 (0 + 5) } ∧
    ({ BaseRobot.init "b" 1 none with
       coords := (BaseRobot.init "b" 1 none).coords.set 1 (0 + 5) } :
        BaseRobot).go_back 5 = some (BaseRobot.init "b" 1 none) :=
  ⟨(C6_move_postcondition_inverse.1 (BaseRobot.init "b" 1 none) 5 0 rfl).1,
   (C6_move_postcondition_inverse.1 (BaseRobot.init "b" 1 none) 5 0 rfl).2.2⟩

/-- C7: on a robot whose position has at least the two declared
coordinates, `n` successive `go_forward(1)` calls reach exactly the same
state as a single `go_forward(n)` call. -/
theorem C7_forward_additivity :
    ∀ (r : BaseRobot) (n : Nat), 2 ≤ r.coords.length →
      BaseRobot.repeatGoForwardOne n r = r.go_forward (n : ℚ) := by
  intro r n
  induction n generalizing r with
  | zero =>
    intro h
    have h1 : 1 < r.coords.length := by omega
    rw [BaseRobot.repeatGoForwardOne, BaseRobot.go_forward, addAt_eq_some h1]
    simp [List.set_get_self r.coords 1 h1]
  | succ n ih =>
    intro h
    have h1 : 1 < r.coords.length := by omega
    obtain ⟨r1, hr1⟩ : ∃ r1, r.go_forward 1 = some r1 :=
      ⟨_, by rw [BaseRobot.go_forward, addAt_eq_some h1]; rfl⟩
    rw [BaseRobot.repeatGoForwardOne, hr1, Option.some_bind]
    have hlen : r1.coords.length = r.coords.length := (go_forward_frame hr1).2.2.1
    rw [ih r1 (by omega)]
    obtain ⟨c, hc, rfl⟩ := base_map_some hr1
    have hcomp := addAt_addAt h1 1 (n : ℚ)
    rw [hc, Option.some_bind] at hcomp
    have hcast : ((n + 1 : ℕ) : ℚ) = 1 + (n : ℚ) := by push_cast; ring
    rw [BaseRobot.go_forward, BaseRobot.go_forward, hcomp, hcast]

/-- C7 (witness): three `go_forward(1)` calls on a fresh robot equal one
`go_forward(3)` call. -/
theorem C7_forward_additivity_witness :
    BaseRobot.repeatGoForwardOne 3 (BaseRobot.init "b" 1 none) =
      (BaseRobot.init "b" 1 none).go_forward ((3 : ℕ) : ℚ) :=
  C7_forward_additivity (BaseRobot.init "b" 1 none) 3 (by decide)

/-- C8: `get_info` is pure — it returns the pair (formatted string,
unchanged state) — and the string is exactly
`"Robot: {name}, Weight: {weight}"` with the weight rendered by Python's
default float-to-string conversion; on `BaseRobot("Rex", 12.5)` it
returns `"Robot: Rex, Weight: 12.5"`. -/
theorem C8_get_info_format :
    (∀ r : BaseRobot,
      r.get_info =
        ("Robot: " ++ r.name ++ ", Weight: " ++ pyFloatStr r.weight, r)) ∧
    (BaseRobot.init "Rex" (12.5 : ℚ) none).get_info.1 =
      "Robot: Rex, Weight: 12.5" := by
  refine ⟨fun r => rfl, ?_⟩
  have h : (12.5 : ℚ) = (⟨25, 2, by norm_num, by norm_num⟩ : ℚ) := by
    apply Rat.ext <;> norm_num
  show "Robot: " ++ "Rex" ++ ", Weight: " ++ pyFloatStr (12.5 : ℚ) =
    "Robot: Rex, Weight: 12.5"
  rw [h]
  decide

/-- C9: every movement operation touches only its designated coordinate
(index 1 for forward/back, 0 for right/left, 2 for up/down), leaving
name, weight, the other coordinates — and for a drone also
`max_load_weight` and `current_load` — unchanged; conversely `hook_load`
and `unhook_load` leave name, weight, position and `max_load_weight`
unchanged. -/
theorem C9_frame_conditions :
    (∀ (r r' : BaseRobot) (s : ℚ), r.go_forward s = some r' → BaseFrame r r' 1) ∧
    (∀ (r r' : BaseRobot) (s : ℚ), r.go_back s = some r' → BaseFrame r r' 1) ∧
    (∀ (r r' : BaseRobot) (s : ℚ), r.go_right s = some r' → BaseFrame r r' 0) ∧
    (∀ (r r' : BaseRobot) (s : ℚ), r.go_left s = some r' → BaseFrame r r' 0) ∧
    (∀ (r r' : FlyingRobot) (s : ℚ), r.go_forward s = some r' → FlyFrame r r' 1) ∧
    (∀ (r r' : FlyingRobot) (s : ℚ), r.go_back s = some r' → FlyFrame r r' 1) ∧
    (∀ (r r' : FlyingRobot) (s : ℚ), r.go_right s = some r' → FlyFrame r r' 0) ∧
    (∀ (r r' : FlyingRobot) (s : ℚ), r.go_left s = some r' → FlyFrame r r' 0) ∧
    (∀ (r r' : FlyingRobot) (s : ℚ), r.go_up s = some r' → FlyFrame r r' 2) ∧
    (∀ (r r' : FlyingRobot) (s : ℚ), r.go_down s = some r' → FlyFrame r r' 2) ∧
    (∀ (d d' : DeliveryDrone) (s : ℚ), d.go_forward s = some d' → DroneFrame d d' 1) ∧
    (∀ (d d' : DeliveryDrone) (s : ℚ), d.go_back s = some d' → DroneFrame d d' 1) ∧
    (∀ (d d' : DeliveryDrone) (s : ℚ), d.go_right s = some d' → DroneFrame d d' 0) ∧
    (∀ (d d' : DeliveryDrone) (s : ℚ), d.go_left s = some d' → DroneFrame d d' 0) ∧
    (∀ (d d' : DeliveryDrone) (s : ℚ), d.go_up s = some d' → DroneFrame d d' 2) ∧
    (∀ (d d' : DeliveryDrone) (s : ℚ), d.go_down s = some d' → DroneFrame d d' 2) ∧
    (∀ (d : DeliveryDrone) (c : Cargo),
      (d.hook_load c).name = d.name ∧ (d.hook_load c).weight = d.weight ∧
      (d.hook_load c).coords = d.coords ∧
      (d.hook_load c).max_load_weight = d.max_load_weight) ∧
    (∀ d : DeliveryDrone,
      d.unhook_load.name = d.name ∧ d.unhook_load.weight = d.weight ∧
      d.unhook_load.coords = d.coords ∧
      d.unhook_load.max_load_weight = d.max_load_weight) :=
  ⟨fun _ _ _ h => go_forward_frame h,
   fun _ _ _ h => go_back_frame h,
   fun _ _ _ h => go_right_frame h,
   fun _ _ _ h => go_left_frame h,
   fun _ _ _ h => fly_go_forward_frame h,
   fun _ _ _ h => fly_go_back_frame h,
   fun _ _ _ h => fly_go_right_frame h,
   fun _ _ _ h => fly_go_left_frame h,
   fun _ _ _ h => fly_go_up_frame h,
   fun _ _ _ h => fly_go_down_frame h,
   fun _ _ _ h => drone_go_forward_frame h,
   fun _ _ _ h => drone_go_back_frame h,
   fun _ _ _ h => drone_go_right_frame h,
   fun _ _ _ h => drone_go_left_frame h,
   fun _ _ _ h => drone_go_up_frame h,
   fun _ _ _ h => drone_go_down_frame h,
   fun d c => ⟨hook_load_name d c, hook_load_weight d c, hook_load_coords d c,
     hook_load_max d c⟩,
   fun _ => ⟨rfl, rfl, rfl, rfl⟩⟩

/-- C9 (witness): moving a fresh ground robot forward by 5 keeps its
name, weight, coordinate count and x coordinate. -/
theorem C9_frame_conditions_witness :
    BaseFrame (BaseRobot.init "b" 1 none)
      { BaseRobot.init "b" 1 none with
        coords := (BaseRobot.init "b" 1 none).coords.set 1 (0 + 5) } 1 :=
  C9_frame_conditions.1 (BaseRobot.init "b" 1 none) _ 5 (by
    rw [BaseRobot.go_forward,
      addAt_eq_some (by decide : 1 < (BaseRobot.init "b" 1 none).coords.length)]
    rfl)

/-- C10: a drone constructed without an explicit `max_load_weight` has
capacity 0, so any strictly positive-weight cargo is refused; the bound
is inclusive, so a cargo weighing exactly `max_load_weight` is attached
on an empty drone — including weight 0 (or negative weight) on a
default-capacity drone. -/
theorem C10_default_capacity :
    (∀ (n : String) (w : ℚ) (c0 : Option (List ℚ)),
      (DeliveryDrone.initDefault n w c0).max_load_weight = 0) ∧
    (∀ (n : String) (w : ℚ) (c0 : Option (List ℚ)) (c : Cargo), 0 < c.weight →
      ((DeliveryDrone.initDefault n w c0).hook_load c).current_load = none) ∧
    (∀ (d : DeliveryDrone) (c : Cargo), d.current_load = none →
      c.weight = d.max_load_weight → (d.hook_load c).current_load = some c) ∧
    (∀ (n : String) (w : ℚ) (c0 : Option (List ℚ)) (c : Cargo), c.weight ≤ 0 →
      ((DeliveryDrone.initDefault n w c0).hook_load c).current_load = some c) := by
  refine ⟨fun n w c0 => rfl, fun n w c0 c hw => ?_, fun d c h1 h2 => ?_,
    fun n w c0 c hw => ?_⟩
  · simp [DeliveryDrone.initDefault, DeliveryDrone.init, DeliveryDrone.hook_load,
      not_le.mpr hw]
  · unfold DeliveryDrone.hook_load
    rw [if_pos ⟨h1, le_of_eq h2⟩]
  · simp [DeliveryDrone.initDefault, DeliveryDrone.init, DeliveryDrone.hook_load, hw]

/-- C10 (witness): the default-capacity drone refuses a weight-1 cargo,
a capacity-7 drone attaches a cargo of weight exactly 7, and the default
drone attaches a weight-0 cargo. -/
theorem C10_default_capacity_witness :
    ((DeliveryDrone.initDefault "d" 1 none).hook_load ⟨1⟩).current_load = none ∧
    ((⟨"x", 1, [0, 0, 0], 7, none⟩ : DeliveryDrone).hook_load ⟨7⟩).current_load =
      some ⟨7⟩ ∧
    ((DeliveryDrone.initDefault "d" 1 none).hook_load ⟨0⟩).current_load =
      some ⟨0⟩ :=
  ⟨C10_default_capacity.2.1 "d" 1 none ⟨1⟩ (show (0 : ℚ) < 1 by norm_num),
   C10_default_capacity.2.2.1 ⟨"x", 1, [0, 0, 0], 7, none⟩ ⟨7⟩ rfl rfl,
   C10_default_capacity.2.2.2 "d" 1 none ⟨0⟩ (show (0 : ℚ) ≤ 0 by norm_num)⟩
